import Mathlib

/-!
Shallow embedding of `fiftyone/core/video.py`: the frame-selection planner
(`_parse_video_frames`), the derived-collection builder loop
(`_populate_frames`), and the source-sync engine of `FramesView`
(`_sync_source`, `_sync_source_schema`, `_sync_source_sample`,
`set_values`), together with theorems settling the frozen claims about
this code.

Machine values stored in documents are modelled as `Nat`; frame numbers
and object ids are `Nat`; the "all frames" sentinel `None` of Python is
`Option.none`, and an explicit list `l` is `some l`.
-/

/-- Insert a natural number into a sorted, duplicate-free list, keeping it
sorted and duplicate-free. Building block for Python's `sorted(set(...))`. -/
def insortDedup (n : Nat) : List Nat → List Nat
  | [] => [n]
  | m :: rest =>
    if n = m then m :: rest
    else if n < m then n :: m :: rest
    else m :: insortDedup n rest

/-- Sorted deduplicated version of a list (`sorted(set(l))`). -/
def sortDedup (l : List Nat) : List Nat := l.foldr insortDedup []

/-- Sorted list of the keys of a frame-ids map: `sorted(frame_ids_map.keys())`
(src/fiftyone/core/video.py line 698). Python dict keys are unique, so the
dedup is harmless. -/
def sortedKeys (m : List (Nat × Nat)) : List Nat := sortDedup (m.map Prod.fst)

/-- Key membership in the frame-ids map: `fn in frame_ids_map` (src line 706). -/
def containsKey (m : List (Nat × Nat)) (fn : Nat) : Bool :=
  m.any (fun p => p.1 == fn)

/-- Key lookup in the frame-ids map: `frame_ids_map.get(fn, None)` (src line 610). -/
def lookupKey (m : List (Nat × Nat)) (fn : Nat) : Option Nat :=
  (m.find? (fun p => p.1 == fn)).map Prod.snd

/-- Inclusive integer range, `list(range(first, last + 1))` (src line 688). -/
def rangeIncl (first last : Nat) : List Nat := List.range' first (last + 1 - first)

/-- Modelled from the spec: `fiftyone.utils.video.sample_frames_uniform` is
lazily imported (src line 29) and its code is not under src/. Per spec §4.1
step 1, with `fps` or `maxFps` given it computes "a uniformly-subsampled set
over [total frame count] or over the support window respecting the max rate";
spec §8 calibrates it: a 100-frame video at frame rate 10 with fps=2 yields 20
uniformly spaced frame numbers. We model it as keeping every
`frameRate / targetFps`-th frame of the base range, the whole base range when
no subsampling is needed, and an empty base range when the total frame count
is unknown and no support window is given. -/
def sample_frames_uniform (frameRate : Option Nat) (totalFrameCount : Int)
    (support : Option (Nat × Nat)) (fps maxFps : Option Nat) : List Nat :=
  let base :=
    match support with
    | some (first, last) => rangeIncl first last
    | none => if totalFrameCount < 0 then [] else rangeIncl 1 totalFrameCount.toNat
  let targetFps :=
    match fps, maxFps with
    | some f, some m => min f m
    | some f, none => f
    | none, some m => m
    | none, none => 0
  match frameRate with
  | none => base
  | some r =>
    if targetFps = 0 || r ≤ targetFps then base
    else base.filter (fun n => (n - base.headD 1) % (r / targetFps) == 0)

/-- Step 1 of `_parse_video_frames` (src lines 678-690): the target frame
numbers; `none` is the "all frames" sentinel. -/
def target_frame_numbers (support : Option (Nat × Nat)) (totalFrameCount : Int)
    (frameRate fps maxFps : Option Nat) : Option (List Nat) :=
  if fps.isSome || maxFps.isSome then
    some (sample_frames_uniform frameRate totalFrameCount support fps maxFps)
  else
    match support with
    | some (first, last) => some (rangeIncl first last)
    | none => none

/-- Steps 2-3 of `_parse_video_frames` (src lines 696-707): the frame numbers
that need a document, with the sparse restriction applied. -/
def doc_frame_numbers (support : Option (Nat × Nat)) (totalFrameCount : Int)
    (frameRate fps maxFps : Option Nat) (frameIdsMap : List (Nat × Nat))
    (sparse : Bool) : List Nat :=
  let doc :=
    match target_frame_numbers support totalFrameCount frameRate fps maxFps with
    | none =>
      if totalFrameCount < 0 then sortedKeys frameIdsMap
      else rangeIncl 1 totalFrameCount.toNat
    | some t => t
  if sparse then doc.filter (containsKey frameIdsMap) else doc

/-- Steps 5-7 of `_parse_video_frames` (src lines 716-729): the frame numbers
that need on-disk extraction; `none` is the "all frames" sentinel, `some []`
means "nothing to extract". -/
def sample_frame_numbers_for (support : Option (Nat × Nat))
    (sparse forceSample : Bool) (target : Option (List Nat)) (doc : List Nat)
    (frameFileExists : Nat → Bool) : Option (List Nat) :=
  let allFrames := !sparse && support.isNone
  if forceSample then
    if allFrames && target.isNone then none else some doc
  else
    let nonExistent := doc.filter (fun fn => !frameFileExists fn)
    if allFrames && nonExistent.length == doc.length then none
    else some nonExistent

/-- The frame-selection planner `_parse_video_frames` (src lines 660-748):
returns `(docFrameNumbers, sampleFrameNumbers)`. `frameFileExists fn` models
`os.path.isfile(images_patt % fn)` (src line 752). When `sampleFrames` is
false the function returns `(docFrameNumbers, some [])` (src lines 709-710). -/
def parse_video_frames (support : Option (Nat × Nat)) (totalFrameCount : Int)
    (frameRate : Option Nat) (frameIdsMap : List (Nat × Nat))
    (sampleFrames forceSample sparse : Bool) (fps maxFps : Option Nat)
    (frameFileExists : Nat → Bool) : List Nat × Option (List Nat) :=
  let doc := doc_frame_numbers support totalFrameCount frameRate fps maxFps
    frameIdsMap sparse
  if !sampleFrames then (doc, some [])
  else
    (doc,
      sample_frame_numbers_for support sparse forceSample
        (target_frame_numbers support totalFrameCount frameRate fps maxFps)
        doc frameFileExists)

/-! Association lists keyed by strings, modelling Python dicts: lookup finds
the first matching key, update replaces in place, insertion appends at the
end (Python 3.7+ dict insertion order). -/
/-- Dict lookup: first value bound to `k`, if any. -/
def lookupA {α : Type} : List (String × α) → String → Option α
  | [], _ => none
  | p :: rest, k => if p.1 = k then some p.2 else lookupA rest k

/-- Dict update `d[k] = v`: replace in place, or append when `k` is new. -/
def setA {α : Type} : List (String × α) → String → α → List (String × α)
  | [], k, v => [(k, v)]
  | p :: rest, k, v => if p.1 = k then (k, v) :: rest else p :: setA rest k v

/-- A stub frame document built by `_populate_frames` (src lines 600-614).
`videoPath` records which source video the document came from (the key of
the caller-maintained dedup map); `filepath` is the stored field. -/
structure FrameDoc where
  videoPath : String
  filepath : String
  tags : List String
  frameNumber : Nat
  sampleId : Nat
  id : Option Nat
deriving Repr, DecidableEq

/-- Deterministic per-video image path, modelling `images_patt % frame_number`
(src lines 559-560, 596). -/
def framePath (videoPath : String) (fn : Nat) : String :=
  videoPath ++ "/" ++ toString fn

/-- One aggregated source sample as consumed by the `_populate_frames` loop
(src lines 541-556): `id` is `sample["_id"]`, `sampleId` is
`sample["_sample_id"]` (meaningful in clips mode), `support` is
`sample["support"]` (present in clips mode). -/
structure VideoSample where
  id : Nat
  sampleId : Nat
  filepath : String
  support : Option (Nat × Nat)
  frameRate : Option Nat
  totalFrameCount : Int
  frameIdsMap : List (Nat × Nat)
  tags : List String
deriving Repr, DecidableEq

/-- Mutable state of the `_populate_frames` loop (src lines 534-537):
`docs`, `id_map`, `sample_map` (`none` value = "all frames" sentinel) and
the per-path clip dedup map `frame_map`. -/
structure PopState where
  docs : List FrameDoc
  idMap : List (String × Nat)
  sampleMap : List (String × Option (List Nat))
  frameMap : List (String × List Nat)
deriving Repr, DecidableEq

def initPopState : PopState := ⟨[], [], [], []⟩

/-- Emission of one stub document for `frame_number` (src lines 587-614),
including the per-path clip dedup (src lines 588-593). -/
def emitDoc (isClips sampleFrames : Bool) (s : VideoSample) (sid : Nat)
    (st : PopState) (fn : Nat) : PopState :=
  let seen := (lookupA st.frameMap s.filepath).getD []
  if isClips && seen.contains fn then st
  else
    let frameMap :=
      if isClips then setA st.frameMap s.filepath (fn :: seen) else st.frameMap
    let fpath := if sampleFrames then framePath s.filepath fn else s.filepath
    let doc : FrameDoc :=
      { videoPath := s.filepath, filepath := fpath, tags := s.tags,
        frameNumber := fn, sampleId := sid, id := lookupKey s.frameIdsMap fn }
    { st with docs := st.docs ++ [doc], frameMap := frameMap }

/-- Body of the per-sample loop of `_populate_frames` (src lines 541-614):
plan the video, accumulate the per-path extraction request into
`sample_map`/`id_map` (src lines 579-585), then emit stub documents. -/
def processSample (isClips sampleFrames forceSample sparse : Bool)
    (fps maxFps : Option Nat) (fileExists : String → Nat → Bool)
    (st : PopState) (s : VideoSample) : PopState :=
  let support := if isClips then s.support else none
  let sid := if isClips then s.sampleId else s.id
  let planned := parse_video_frames support s.totalFrameCount s.frameRate
    s.frameIdsMap sampleFrames forceSample sparse fps maxFps
    (fileExists s.filepath)
  let docFns := planned.1
  let sampleFns := planned.2
  let st :=
    if sampleFns = some [] then st
    else
      let idMap := setA st.idMap s.filepath s.id
      let sampleMap :=
        match sampleFns with
        | none => setA st.sampleMap s.filepath none
        | some l =>
          match lookupA st.sampleMap s.filepath with
          | some none => st.sampleMap
          | some (some cur) => setA st.sampleMap s.filepath (some (cur ++ l))
          | none => setA st.sampleMap s.filepath (some l)
      { st with idMap := idMap, sampleMap := sampleMap }
  docFns.foldl (emitDoc isClips sampleFrames s sid) st

/-- The whole `_populate_frames` planning pass over the samples. -/
def buildState (isClips sampleFrames forceSample sparse : Bool)
    (fps maxFps : Option Nat) (fileExists : String → Nat → Bool)
    (samples : List VideoSample) : PopState :=
  samples.foldl (processSample isClips sampleFrames forceSample sparse fps maxFps fileExists)
    initPopState

/-- Conversion of `sample_map` into `ids_to_sample`/`frames_to_sample`
(src lines 616-626): iterate `sample_map` in insertion order, look up the
video id, and sort each explicit per-path frame-number set. -/
def finalizeSampleMap (st : PopState) : List Nat × List (Option (List Nat)) :=
  st.sampleMap.foldl
    (fun acc p =>
      (acc.1 ++ [(lookupA st.idMap p.1).getD 0],
        acc.2 ++ [p.2.map sortDedup]))
    ([], [])

/-- A bulk-write failure of the document store, carrying the `errmsg` of each
write error (`bwe.details["writeErrors"]`, src line 634). -/
structure BulkWriteError where
  writeErrors : List String
deriving Repr, DecidableEq

/-- Result of `_populate_frames` (src lines 616-657): the ids and frame
numbers to extract, the inserted stub documents, and whether the trailing
frames-data merge aggregation ran. -/
structure PopulateResult where
  idsToSample : List Nat
  framesToSample : List (Option (List Nat))
  docs : List FrameDoc
  mergeRan : Bool
deriving Repr, DecidableEq

/-- The builder pass `_populate_frames` (src lines 516-657). `insertMany`
models `dataset._sample_collection.insert_many` (src line 632); on a
`BulkWriteError` the code re-raises `ValueError` with the first write
error's `errmsg` (src lines 633-635), modelled as `Except.error`. -/
def populate_frames (isClips sampleFrames forceSample sparse : Bool)
    (fps maxFps : Option Nat) (fileExists : String → Nat → Bool)
    (insertMany : List FrameDoc → Except BulkWriteError Unit)
    (samples : List VideoSample) : Except String PopulateResult :=
  let st := buildState isClips sampleFrames forceSample sparse fps maxFps
    fileExists samples
  let fin := finalizeSampleMap st
  if st.docs.isEmpty then
    Except.ok ⟨fin.1, fin.2, st.docs, false⟩
  else
    match insertMany st.docs with
    | Except.error bwe => Except.error (bwe.writeErrors.headD "")
    | Except.ok _ => Except.ok ⟨fin.1, fin.2, st.docs, true⟩

/-- First clip of the two-clip deduplication scenario: support `[1, 50]`
over `v.mp4`. -/
def clipA : VideoSample :=
  { id := 1, sampleId := 100, filepath := "v.mp4", support := some (1, 50),
    frameRate := some 10, totalFrameCount := 100, frameIdsMap := [], tags := [] }

/-- Second clip of the two-clip deduplication scenario: support `[30, 80]`
over the same file. -/
def clipB : VideoSample :=
  { id := 2, sampleId := 100, filepath := "v.mp4", support := some (30, 80),
    frameRate := some 10, totalFrameCount := 100, frameIdsMap := [], tags := [] }

/-- Frame numbers of the emitted stub documents that belong to video `p`. -/
def fnsAt (p : String) (docs : List FrameDoc) : List Nat :=
  (docs.filter (fun d => d.videoPath == p)).map FrameDoc.frameNumber

/-! Source-sync engine of `FramesView` (src lines 226-357). -/
/-- A field schema: field name to field-type descriptor (Python dict). -/
def Schema : Type := List (String × String)

/-- Schema key membership (`field_name in src_schema`). -/
def hasKey (s : Schema) (k : String) : Bool :=
  (s : List (String × String)).any (fun p => p.1 == k)

/-- Modelled from the spec: the base class `SampleView._get_default_sample_fields`
is not under src/; per spec §3 a FrameRow's built-in attributes are its row id,
file path, tag list and metadata, and the stub documents of src lines 600-608
carry exactly `filepath`, `tags`, `metadata`, `_media_type`, `_rand` besides
the key fields, so the private database-name defaults of the base class are
`_id`, `filepath`, `tags`, `metadata`, `_media_type`, `_rand`. -/
def base_default_sample_fields (includePrivate useDbFields : Bool) : List String :=
  (if useDbFields then ["_id"] else ["id"]) ++ ["filepath", "tags", "metadata"] ++
    (if includePrivate then ["_media_type", "_rand"] else [])

/-- `FramesView._get_default_sample_fields` (src lines 135-145): the base
class defaults plus the sample-id and frame-number fields. -/
def default_sample_fields (includePrivate useDbFields : Bool) : List String :=
  base_default_sample_fields includePrivate useDbFields ++
    (if useDbFields then ["_sample_id", "frame_number"]
     else ["sample_id", "frame_number"])

/-- An aggregation pipeline stage as built by the sync engine
(src lines 269-310): `$match` on an id set, `$unset`, `$project`
(listed fields included), `$out`, and `$merge` with
`whenMatched: merge, whenNotMatched: discard`. -/
inductive Stage where
  | matchIds (ids : List Nat)
  | unset (fields : List String)
  | project (fields : List String)
  | out (coll : String)
  | merge (intoColl : String) (onKeys : List String)
deriving Repr, DecidableEq

/-- An observable operation issued against the source dataset: frame-field
schema additions/deletions (src lines 349-357), a point update of the source
frame collection (src lines 249-251), and execution of an aggregation
pipeline whose terminal stage writes back into the source frame collection
(src line 312). -/
inductive SyncOp where
  | addFrameField (name kind : String)
  | deleteFrameField (name : String)
  | updateOne (sampleId frameNumber : Nat) (updates : List (String × Nat))
  | aggregate (pipeline : List Stage)
deriving Repr, DecidableEq

/-- The field names `_sync_source_schema` would add to the source collection
(src lines 318-342). -/
def schema_add_fields (viewSchema srcSchema : Schema)
    (fields : Option (List String)) : List String :=
  match fields with
  | some fs => fs.filter (fun f => !hasKey srcSchema f)
  | none =>
    ((viewSchema : List (String × String)).map Prod.fst).filter
      (fun f => !hasKey srcSchema f && !(default_sample_fields true false).contains f)

/-- The field names `_sync_source_schema` would delete from the source
collection (src lines 344-347): only in full sync (`fields is None`) with
`delete=True`. -/
def schema_delete_fields (viewSchema srcSchema : Schema)
    (fields : Option (List String)) (del : Bool) : List String :=
  if del then
    match fields with
    | some _ => []
    | none =>
      ((srcSchema : List (String × String)).map Prod.fst).filter
        (fun f => !hasKey viewSchema f)
  else []

/-- `FramesView._sync_source_schema` (src lines 314-357) as the list of
schema operations it performs, in order: all additions, then (when `delete`)
all deletions. The added field's kind is copied from the view schema
(src lines 349-353). -/
def sync_source_schema (viewSchema srcSchema : Schema)
    (fields : Option (List String)) (del : Bool) : List SyncOp :=
  (schema_add_fields viewSchema srcSchema fields).map
      (fun f => SyncOp.addFrameField f ((lookupA viewSchema f).getD "")) ++
    (schema_delete_fields viewSchema srcSchema fields del).map
      SyncOp.deleteFrameField

/-- The composite key fields of the frames collection. -/
def keyFields : List String := ["_id", "_sample_id", "frame_number"]

/-- The pipeline built for a field-scoped bulk sync (src lines 280-310):
optional id `$match`, a `$project` of exactly the restricted fields plus the
composite key, and a keyed discard-merge into the source frame collection. -/
def field_scoped_pipeline (dst : String) (fs : List String)
    (ids : Option (List Nat)) : List Stage :=
  (match ids with
    | some l => [Stage.matchIds l]
    | none => []) ++
    [Stage.project (fs ++ keyFields),
      Stage.merge dst ["_sample_id", "frame_number"]]

/-- The pipeline built for a full unscoped bulk sync (src lines 271-277):
`$unset` the non-key default fields and `$out` the whole collection. -/
def full_sync_pipeline (dst : String) : List Stage :=
  [Stage.unset ((default_sample_fields true true).filter
      (fun f => !keyFields.contains f)),
    Stage.out dst]

/-- The pipeline built for an id-scoped full-field bulk sync
(src lines 280-310 with `fields is None`): id `$match`, `$unset` of the
defaults except `_sample_id`/`frame_number` (note: `_id` is unset too), and
the keyed discard-merge. -/
def id_scoped_pipeline (dst : String) (ids : List Nat) : List Stage :=
  [Stage.matchIds ids,
    Stage.unset ((default_sample_fields true true).filter
      (fun f => !(["_sample_id", "frame_number"].contains f))),
    Stage.merge dst ["_sample_id", "frame_number"]]

/-- Restriction of a requested field list to the non-default field names
(src line 261). -/
def restrictFields (fs : List String) : List String :=
  fs.filter (fun f => !(default_sample_fields true true).contains f)

/-- `FramesView._sync_source` (src lines 253-312) as the ordered list of
operations it performs: restrict `fields` to non-default names and return
early when nothing is left (src lines 260-263), run schema reconciliation
with `delete=True` (src line 265), then run one aggregation whose terminal
stage writes back into the source frame collection `dst`. -/
def sync_source (dst : String) (viewSchema srcSchema : Schema)
    (fields : Option (List String)) (ids : Option (List Nat)) : List SyncOp :=
  match fields with
  | some fs0 =>
    let fs := restrictFields fs0
    if fs.isEmpty then []
    else
      sync_source_schema viewSchema srcSchema (some fs) true ++
        [SyncOp.aggregate (field_scoped_pipeline dst fs ids)]
  | none =>
    sync_source_schema viewSchema srcSchema none true ++
      [SyncOp.aggregate
        (match ids with
          | none => full_sync_pipeline dst
          | some l => id_scoped_pipeline dst l)]

/-- `FramesView._sync_source_sample` (src lines 226-251) as the ordered list
of operations it performs: schema reconciliation without deletion, then — when
the delta of the frame's fields against the default field set is non-empty —
one point update keyed by `(_sample_id, frame_number)` setting that delta. -/
def sync_source_sample (viewSchema srcSchema : Schema)
    (sampleFields : List (String × Nat)) (sid fn : Nat) : List SyncOp :=
  sync_source_schema viewSchema srcSchema none false ++
    (let updates := sampleFields.filter
        (fun p => !(default_sample_fields true true).contains p.1)
     if updates.isEmpty then [] else [SyncOp.updateOne sid fn updates])

/-- Root of a possibly-embedded field name: `field_name.split(".", 1)[0]`
(src line 163). -/
def rootField (s : String) : String :=
  String.mk (s.data.takeWhile (fun c => c ≠ '.'))

/-- `FramesView.set_values` (src lines 153-164) reduced to the source-sync
call it issues: the id restriction is captured only when the view has extra
stages (src lines 156-159), and the field restriction is the root of the
given field name. -/
def set_values_sync (dst : String) (viewSchema srcSchema : Schema)
    (stages : List String) (viewIds : List Nat) (fieldName : String) :
    List SyncOp :=
  sync_source dst viewSchema srcSchema (some [rootField fieldName])
    (if stages.isEmpty then none else some viewIds)

/-! Document-store semantics for the pipelines above, modelling the external
document store of spec §6: rows are string-keyed documents with `Nat`
values. -/
/-- A document row. -/
def Row : Type := List (String × Nat)

/-- `$project` with the listed fields included (missing fields are omitted,
as in the store). -/
def projectRow (ks : List String) (r : Row) : Row :=
  (r : List (String × Nat)).filter (fun p => ks.contains p.1)

/-- `$unset` of the listed fields. -/
def unsetRow (ks : List String) (r : Row) : Row :=
  (r : List (String × Nat)).filter (fun p => !ks.contains p.1)

/-- `$match {_id: {$in: ids}}`. -/
def matchRow (ids : List Nat) (r : Row) : Bool :=
  match lookupA r "_id" with
  | some i => ids.contains i
  | none => false

/-- Merge one result document into a matched target document: every field of
the result overwrites or is added to the target (`whenMatched: merge`). -/
def mergeRow (t r : Row) : Row :=
  (r : List (String × Nat)).foldl (fun acc p => setA acc p.1 p.2) t

/-- `$merge ... whenMatched: merge, whenNotMatched: discard`: each result row
updates the target rows agreeing with it on the `on` keys; results matching
no target row are discarded, so no target row is ever created. -/
def mergeRows (results : List Row) (onKeys : List String) (target : List Row) :
    List Row :=
  results.foldl
    (fun tgt r =>
      tgt.map (fun t =>
        if onKeys.all (fun k => lookupA t k == lookupA r k) then mergeRow t r
        else t))
    target

/-- Run a pipeline over the view rows with the source frame collection as the
write-back target; returns the final state of the target collection. -/
def runAgg : List Stage → List Row → List Row → List Row
  | [], _, dst => dst
  | Stage.matchIds ids :: rest, rows, dst =>
    runAgg rest (rows.filter (matchRow ids)) dst
  | Stage.unset ks :: rest, rows, dst => runAgg rest (rows.map (unsetRow ks)) dst
  | Stage.project ks :: rest, rows, dst =>
    runAgg rest (rows.map (projectRow ks)) dst
  | Stage.out _ :: rest, rows, _ => runAgg rest rows rows
  | Stage.merge _ ks :: rest, rows, dst => runAgg rest rows (mergeRows rows ks dst)

/-- Schema operations (as opposed to data writes). -/
def isSchemaOp : SyncOp → Bool
  | SyncOp.addFrameField _ _ => true
  | SyncOp.deleteFrameField _ => true
  | _ => false

/-- Data-write operations against the source collection (as opposed to
schema operations). -/
def isDataWrite : SyncOp → Bool
  | SyncOp.updateOne _ _ _ => true
  | SyncOp.aggregate _ => true
  | _ => false

/-- Frame-field deletion operations. -/
def isDeleteOp : SyncOp → Bool
  | SyncOp.deleteFrameField _ => true
  | _ => false

/-- A plain single video used as a concrete witness input. -/
def soloVideo : VideoSample :=
  { id := 7, sampleId := 7, filepath := "w.mp4", support := none,
    frameRate := some 5, totalFrameCount := 2, frameIdsMap := [], tags := [] }

/-! Clip deduplication invariant for the builder loop. -/
/-- Frame numbers already planned for path `p` (the `frame_map[video_path]`
dedup set, src lines 588-593). -/
def seenAt (p : String) (st : PopState) : List Nat :=
  (lookupA st.frameMap p).getD []

/-- Invariant of the builder loop in clips mode: per path, the emitted stub
frame numbers are duplicate-free and recorded in the dedup set. -/
def PopInv (st : PopState) : Prop :=
  ∀ p, (fnsAt p st.docs).Nodup ∧ ∀ fn ∈ fnsAt p st.docs, fn ∈ seenAt p st

/-! Helper lemmas about the sorting and membership helpers. -/
theorem mem_insortDedup {x n : Nat} {l : List Nat} :
    x ∈ insortDedup n l ↔ x = n ∨ x ∈ l := by
  induction l with
  | nil => simp [insortDedup]
  | cons m rest ih =>
    by_cases h1 : n = m
    · subst h1
      simp [insortDedup]
    · by_cases h2 : n < m
      · simp [insortDedup, h1, h2]
      · simp [insortDedup, h1, h2, ih]
        tauto

theorem mem_sortDedup {x : Nat} {l : List Nat} : x ∈ sortDedup l ↔ x ∈ l := by
  induction l with
  | nil => simp [sortDedup]
  | cons m rest ih =>
    simp only [sortDedup, List.foldr_cons]
    rw [show List.foldr insortDedup [] rest = sortDedup rest from rfl] at *
    simp [mem_insortDedup, ih]

theorem mem_sortedKeys {x : Nat} {m : List (Nat × Nat)} :
    x ∈ sortedKeys m ↔ x ∈ m.map Prod.fst := by
  simp [sortedKeys, mem_sortDedup]

theorem containsKey_iff {m : List (Nat × Nat)} {x : Nat} :
    containsKey m x = true ↔ x ∈ m.map Prod.fst := by
  simp only [containsKey, List.any_eq_true, List.mem_map, beq_iff_eq]

theorem sample_for_empty_not_all (support : Option (Nat × Nat))
    (sparse forceSample : Bool) (target : Option (List Nat))
    (fileEx : Nat → Bool) (h : (!sparse && support.isNone) = false) :
    sample_frame_numbers_for support sparse forceSample target [] fileEx = some [] := by
  simp [sample_frame_numbers_for, h]

/-- Claim C1, as amended: for every video, if the planner's computed
`docFrameNumbers` is empty and the planning is not in all-frames mode — that
is, extraction is disabled, or `sparse` is set, or a support window is
given — then the returned `sampleFrameNumbers` is exactly `[]`. In
all-frames mode the guarantee can fail: at the counterexample's input the
planner returns the `nil` all-frames sentinel instead of `[]`. -/
theorem empty_doc_frames_scoped_empty_samples (support : Option (Nat × Nat))
    (totalFrameCount : Int) (frameRate : Option Nat)
    (frameIdsMap : List (Nat × Nat)) (sampleFrames forceSample sparse : Bool)
    (fps maxFps : Option Nat) (fileEx : Nat → Bool)
    (hdoc : (parse_video_frames support totalFrameCount frameRate frameIdsMap
      sampleFrames forceSample sparse fps maxFps fileEx).1 = [])
    (hmode : sampleFrames = false ∨ sparse = true ∨ support ≠ none) :
    (parse_video_frames support totalFrameCount frameRate frameIdsMap
      sampleFrames forceSample sparse fps maxFps fileEx).2 = some [] := by
  cases sampleFrames with
  | false => simp [parse_video_frames]
  | true =>
    have hd : doc_frame_numbers support totalFrameCount frameRate fps maxFps
        frameIdsMap sparse = [] := by
      simpa [parse_video_frames] using hdoc
    have hall : (!sparse && support.isNone) = false := by
      rcases hmode with h | h | h
      · cases h
      · simp [h]
      · cases support with
        | none => cases h rfl
        | some s => simp
    simpa [parse_video_frames, hd] using
      sample_for_empty_not_all support sparse forceSample
        (target_frame_numbers support totalFrameCount frameRate fps maxFps)
        fileEx hall

/-- Claim C1, counterexample: with no support window, unknown total frame
count, an empty known-frames map, extraction enabled, `force_sample=true` and
`sparse=false`, the planner computes an empty `docFrameNumbers` yet returns
the `nil` "all frames" sentinel, not `[]`. -/
theorem empty_doc_frames_nil_sentinel :
    (parse_video_frames none (-1) none [] true true false none none
      (fun _ => false)).1 = [] ∧
    (parse_video_frames none (-1) none [] true true false none none
      (fun _ => false)).2 ≠ some [] := by
  decide

/-- Witness for the amended claim C1 at a concrete input (sparse mode, empty
known-frames map). -/
theorem empty_doc_frames_scoped_empty_samples_witness :
    (parse_video_frames none (-1) none [] true false true none none
      (fun _ => false)).1 = [] ∧
    (parse_video_frames none (-1) none [] true false true none none
      (fun _ => false)).2 = some [] :=
  ⟨by decide,
    empty_doc_frames_scoped_empty_samples none (-1) none [] true false true
      none none (fun _ => false) (by decide) (Or.inr (Or.inl rfl))⟩

/-- Claim C6: for every video planned with `force_sample=true`,
`sparse=false`, no support window, extraction enabled, and neither `fps` nor
`max_fps` given, the planner returns the `nil` "sample everything" sentinel,
never an explicit list — regardless of the total frame count, the frame rate,
the known-frames map, and the on-disk state. -/
theorem force_sample_all_frames_nil (totalFrameCount : Int)
    (frameRate : Option Nat) (frameIdsMap : List (Nat × Nat))
    (fileEx : Nat → Bool) :
    (parse_video_frames none totalFrameCount frameRate frameIdsMap
      true true false none none fileEx).2 = none := by
  simp [parse_video_frames, sample_frame_numbers_for, target_frame_numbers]

/-- Claim C7, as amended: for every video whose total frame count is unknown
(negative), with no support window and no `fps`/`max_fps` subsampling
request, the planner's `docFrameNumbers` is exactly the sorted set of frame
numbers already present in the known-frames map. -/
theorem unknown_count_doc_frames_known_keys (totalFrameCount : Int)
    (frameRate : Option Nat) (frameIdsMap : List (Nat × Nat))
    (sampleFrames forceSample sparse : Bool) (fileEx : Nat → Bool)
    (h : totalFrameCount < 0) :
    (parse_video_frames none totalFrameCount frameRate frameIdsMap
      sampleFrames forceSample sparse none none fileEx).1 =
      sortedKeys frameIdsMap := by
  have hfilter : (sortedKeys frameIdsMap).filter (containsKey frameIdsMap) =
      sortedKeys frameIdsMap := by
    rw [List.filter_eq_self]
    intro a ha
    exact containsKey_iff.mpr (mem_sortedKeys.mp ha)
  cases sampleFrames <;> cases sparse <;>
    simp [parse_video_frames, doc_frame_numbers, target_frame_numbers, h, hfilter]

/-- Claim C7, counterexample: with unknown total frame count, no support
window, but an `fps` subsampling request, the planner does not return the
sorted known-frame-number set (here it returns `[]` while frame 1 is known,
per the spec-modelled uniform subsampler). -/
theorem unknown_count_with_fps_not_known_keys :
    (parse_video_frames none (-1) (some 10) [(1, 101)] true false false
      (some 2) none (fun _ => false)).1 ≠ sortedKeys [(1, 101)] ∧
    (parse_video_frames none (-1) (some 10) [(1, 101)] true false false
      (some 2) none (fun _ => false)).1 = [] ∧
    sortedKeys [(1, 101)] = [1] := by
  decide

/-- Witness for the amended claim C7 at a concrete input (two known frames,
out of order in the map). -/
theorem unknown_count_doc_frames_known_keys_witness :
    (-1 : Int) < 0 ∧
    (parse_video_frames none (-1) none [(3, 30), (1, 10)] true false false
      none none (fun _ => false)).1 = sortedKeys [(3, 30), (1, 10)] :=
  ⟨by decide,
    unknown_count_doc_frames_known_keys (-1) none [(3, 30), (1, 10)]
      true false false (fun _ => false) (by decide)⟩

theorem schema_ops_are_schema (vs ss : Schema) (fields : Option (List String))
    (del : Bool) (op : SyncOp) (h : op ∈ sync_source_schema vs ss fields del) :
    isSchemaOp op = true := by
  rcases List.mem_append.mp h with h1 | h1 <;>
  · rcases List.mem_map.mp h1 with ⟨g, _, rfl⟩
    rfl

/-- Claim C2, counterexample: a bulk sync with an id restriction but no field
restriction still deletes source frame fields that are absent from the view
schema — here field `b` is deleted even though `ids` is set. -/
theorem id_scoped_sync_deletes_field :
    SyncOp.deleteFrameField "b" ∈
      sync_source "frames" [("a", "A")] [("b", "B")] none (some [5]) := by
  decide

theorem no_delete_in_field_scoped (dst : String) (vs ss : Schema)
    (fs : List String) (ids : Option (List Nat)) (f : String) :
    SyncOp.deleteFrameField f ∉ sync_source dst vs ss (some fs) ids := by
  intro hmem
  simp [sync_source, sync_source_schema, schema_delete_fields] at hmem

/-- Claim C2, as amended: bulk sync always runs schema reconciliation with
`delete=True`, and deletions can happen whenever the fields restriction is
unset (even with an id restriction); for every call with `fields` set, no
field is ever deleted from the source collection's frame schema. -/
theorem field_scoped_sync_never_deletes (dst : String) (vs ss : Schema)
    (fs : List String) (ids : Option (List Nat)) :
    (sync_source dst vs ss (some fs) ids).filter isDeleteOp = [] := by
  rw [List.filter_eq_nil]
  intro op hop
  cases op with
  | addFrameField n k => simp [isDeleteOp]
  | updateOne a b c => simp [isDeleteOp]
  | aggregate p => simp [isDeleteOp]
  | deleteFrameField f =>
    exact absurd hop (no_delete_in_field_scoped dst vs ss fs ids f)

/-- Claim C3, counterexample: in a full unscoped sync, the schema deletion of
field `b` is issued before the write-back aggregation, not after it — so if
the bulk write-back fails, the field has already been removed. -/
theorem full_sync_deletes_before_writeback_example :
    sync_source "frames" [] [("b", "B")] none none =
      [SyncOp.deleteFrameField "b",
        SyncOp.aggregate (full_sync_pipeline "frames")] := by
  decide

/-- Claim C3, as amended: during a full unscoped sync, schema additions and
schema removals are both applied before the data write-back: every schema
operation in the trace strictly precedes every write-back aggregation, so a
failing bulk write-back happens after any removals, not before them. -/
theorem full_sync_schema_ops_precede_writeback (dst : String) (vs ss : Schema)
    (i j : Nat) (op : SyncOp) (p : List Stage)
    (hi : (sync_source dst vs ss none none).get? i = some op)
    (hop : isSchemaOp op = true)
    (hj : (sync_source dst vs ss none none).get? j =
      some (SyncOp.aggregate p)) :
    i < j := by
  have htr : sync_source dst vs ss none none =
      sync_source_schema vs ss none true ++
        [SyncOp.aggregate (full_sync_pipeline dst)] := rfl
  rw [htr] at hi hj
  have hjlen : (sync_source_schema vs ss none true).length ≤ j := by
    by_contra hlt
    push_neg at hlt
    rw [List.get?_append hlt] at hj
    have hm := schema_ops_are_schema vs ss none true _ (List.get?_mem hj)
    simp [isSchemaOp] at hm
  have hilen : i < (sync_source_schema vs ss none true).length := by
    by_contra hge
    push_neg at hge
    rw [List.get?_append_right hge] at hi
    cases h0 : i - (sync_source_schema vs ss none true).length with
    | zero =>
      rw [h0] at hi
      simp only [List.get?] at hi
      cases hi
      simp [isSchemaOp] at hop
    | succ n =>
      rw [h0] at hi
      simp [List.get?] at hi
  omega

/-- Witness for the amended claim C3 at a concrete input: the deletion of
field `b` sits at index 0, the write-back aggregation at index 1. -/
theorem full_sync_schema_ops_precede_writeback_witness :
    (sync_source "frames" [] [("b", "B")] none none).get? 0 =
        some (SyncOp.deleteFrameField "b") ∧
    isSchemaOp (SyncOp.deleteFrameField "b") = true ∧
    (sync_source "frames" [] [("b", "B")] none none).get? 1 =
        some (SyncOp.aggregate (full_sync_pipeline "frames")) ∧
    (0 : Nat) < 1 :=
  ⟨by decide, by decide, by decide,
    full_sync_schema_ops_precede_writeback "frames" [] [("b", "B")] 0 1
      (SyncOp.deleteFrameField "b") (full_sync_pipeline "frames")
      (by decide) (by decide) (by decide)⟩

theorem schema_ops_no_data_writes (vs ss : Schema)
    (fields : Option (List String)) (del : Bool) :
    (sync_source_schema vs ss fields del).filter isDataWrite = [] := by
  rw [List.filter_eq_nil]
  intro op hop
  have h := schema_ops_are_schema vs ss fields del op hop
  cases op <;> simp_all [isSchemaOp, isDataWrite]

/-- Claim C9: a single-row sync computes the delta of the row's fields
against the default/protected field set; when the delta is empty it performs
no data write to the source collection, and otherwise its data writes are
exactly one point update keyed by (owning-video id, frame number) setting
exactly the delta fields. -/
theorem sync_source_sample_delta_semantics (vs ss : Schema)
    (sampleFields : List (String × Nat)) (sid fn : Nat) :
    (sync_source_sample vs ss sampleFields sid fn).filter isDataWrite =
      (if (sampleFields.filter
            (fun p => !(default_sample_fields true true).contains p.1)).isEmpty
       then []
       else [SyncOp.updateOne sid fn (sampleFields.filter
            (fun p => !(default_sample_fields true true).contains p.1))]) := by
  simp only [sync_source_sample, List.filter_append, schema_ops_no_data_writes,
    List.nil_append]
  split
  · simp
  · simp [isDataWrite]

theorem takeWhile_append_stop (p : Char → Bool) (l₁ l₂ : List Char) (c : Char)
    (h : ∀ x ∈ l₁, p x = true) (hc : p c = false) :
    (l₁ ++ c :: l₂).takeWhile p = l₁ := by
  induction l₁ with
  | nil => simp [List.takeWhile, hc]
  | cons x xs ih =>
    have hx : p x = true := h x (by simp)
    have ih2 := ih (fun y hy => h y (by simp [hy]))
    simp only [List.cons_append, List.takeWhile, hx]
    exact congrArg (List.cons x) ih2

theorem rootField_append (a b : String) (h : ('.' : Char) ∉ a.data) :
    rootField (a ++ "." ++ b) = a := by
  have hdata : (a ++ "." ++ b).data = a.data ++ '.' :: b.data := by
    simp [String.data_append]
  rw [rootField, hdata, takeWhile_append_stop]
  · intro x hx
    simp only [decide_eq_true_eq]
    intro hxe
    exact h (hxe ▸ hx)
  · simp

/-- Claim C10: a `set_values` call with an embedded field name `a.b` scopes
the subsequent source sync to the top-level root field `a` (so the whole
root field is pushed), and captures the id restriction only when the view
has extra stages — with no extra stages the sync is unrestricted by id. -/
theorem set_values_root_field_scope (dst : String) (vs ss : Schema)
    (stages : List String) (viewIds : List Nat) (a b : String)
    (h : ('.' : Char) ∉ a.data) :
    set_values_sync dst vs ss stages viewIds (a ++ "." ++ b) =
      sync_source dst vs ss (some [a])
        (if stages.isEmpty then none else some viewIds) := by
  rw [set_values_sync, rootField_append a b h]

/-- Witness for claim C10 at a concrete input: setting `labels.detections`
on a stage-free view syncs field `labels` with no id restriction. -/
theorem set_values_root_field_scope_witness :
    ('.' : Char) ∉ ("labels" : String).data ∧
    set_values_sync "frames" [("labels", "L")] [("labels", "L")] [] [1]
        ("labels" ++ "." ++ "detections") =
      sync_source "frames" [("labels", "L")] [("labels", "L")]
        (some ["labels"]) none :=
  ⟨by decide, by
    have hr := set_values_root_field_scope "frames" [("labels", "L")]
      [("labels", "L")] [] [1] "labels" "detections" (by decide)
    simpa using hr⟩

/-- Claim C5: when the bulk insert of the frame stub documents fails with a
bulk-write (duplicate-key) error, the builder surfaces an error whose
message is exactly the underlying store's first write error's `errmsg`, and
the failure is fatal: `_populate_frames` returns that error and the
frames-data merge never runs. -/
theorem populate_frames_insert_failure_first_errmsg
    (isClips sampleFrames forceSample sparse : Bool) (fps maxFps : Option Nat)
    (fileExists : String → Nat → Bool) (samples : List VideoSample)
    (bwe : BulkWriteError) (e : String) (rest : List String)
    (hb : bwe.writeErrors = e :: rest)
    (hdocs : (buildState isClips sampleFrames forceSample sparse fps maxFps
      fileExists samples).docs ≠ []) :
    populate_frames isClips sampleFrames forceSample sparse fps maxFps
      fileExists (fun _ => Except.error bwe) samples = Except.error e := by
  have hemp : (buildState isClips sampleFrames forceSample sparse fps maxFps
      fileExists samples).docs.isEmpty = false := by
    simpa [List.isEmpty_iff] using hdocs
  simp [populate_frames, hemp, hb]

/-- Witness for claim C5 at a concrete input: one two-frame video, a
duplicate-key bulk-write error with diagnostic text `E11000 duplicate key
error`; the builder fails with exactly that text. -/
theorem populate_frames_insert_failure_first_errmsg_witness :
    (BulkWriteError.mk ["E11000 duplicate key error"]).writeErrors =
        "E11000 duplicate key error" :: [] ∧
    (buildState false true true false none none (fun _ _ => false)
        [soloVideo]).docs ≠ [] ∧
    populate_frames false true true false none none (fun _ _ => false)
        (fun _ => Except.error (BulkWriteError.mk ["E11000 duplicate key error"]))
        [soloVideo] =
      Except.error "E11000 duplicate key error" :=
  ⟨rfl, by decide,
    populate_frames_insert_failure_first_errmsg false true true false none none
      (fun _ _ => false) [soloVideo]
      (BulkWriteError.mk ["E11000 duplicate key error"])
      "E11000 duplicate key error" [] rfl (by decide)⟩

/-! Lemmas about the document-store semantics. -/
theorem lookupA_setA {α : Type} (m : List (String × α)) (k q : String) (v : α) :
    lookupA (setA m k v) q = if k = q then some v else lookupA m q := by
  induction m with
  | nil => simp [setA, lookupA]
  | cons p rest ih =>
    by_cases hpk : p.1 = k
    · simp only [setA, if_pos hpk]
      by_cases hkq : k = q
      · simp [lookupA, hkq]
      · have hpq : p.1 ≠ q := fun hh => hkq (by rw [← hpk, hh])
        simp [lookupA, hkq, hpq]
    · simp only [setA, if_neg hpk]
      by_cases hpq : p.1 = q
      · have hkq : k ≠ q := fun hh => hpk (by rw [hpq, hh])
        simp [lookupA, hpq, hkq]
      · simp [lookupA, hpq, ih]

theorem keys_of_lookupA_none {α : Type} (r : List (String × α)) (k : String)
    (h : lookupA r k = none) : ∀ p ∈ r, p.1 ≠ k := by
  induction r with
  | nil => simp
  | cons p rest ih =>
    intro q hq
    rcases List.mem_cons.mp hq with rfl | hq2
    · intro hk
      simp [lookupA, hk] at h
    · by_cases hpk : p.1 = k
      · simp [lookupA, hpk] at h
      · exact ih (by simpa [lookupA, hpk] using h) q hq2

theorem lookupA_foldl_setA (t : List (String × Nat)) (r : List (String × Nat))
    (k : String) (h : ∀ p ∈ r, p.1 ≠ k) :
    lookupA (r.foldl (fun acc p => setA acc p.1 p.2) t) k = lookupA t k := by
  induction r generalizing t with
  | nil => rfl
  | cons p rest ih =>
    simp only [List.foldl_cons]
    rw [ih (setA t p.1 p.2) (fun q hq => h q (by simp [hq])), lookupA_setA,
      if_neg (h p (by simp))]

theorem lookupA_mergeRow (t r : Row) (k : String) (h : lookupA r k = none) :
    lookupA (mergeRow t r) k = lookupA t k :=
  lookupA_foldl_setA t r k (keys_of_lookupA_none r k h)

theorem lookupA_projectRow (ks : List String) (r : Row) (k : String)
    (h : ks.contains k = false) : lookupA (projectRow ks r) k = none := by
  induction r with
  | nil => rfl
  | cons p rest ih =>
    by_cases hp : ks.contains p.1
    · have hpk : p.1 ≠ k := by
        intro he
        rw [he, h] at hp
        cases hp
      have hkeep : projectRow ks (p :: rest) = p :: projectRow ks rest := by
        simp only [projectRow, List.filter_cons, hp, if_true]
      rw [hkeep]
      simp only [lookupA]
      rw [if_neg hpk]
      exact ih
    · have hdrop : projectRow ks (p :: rest) = projectRow ks rest := by
        simp only [projectRow, List.filter_cons, Bool.not_eq_true] at hp ⊢
        rw [hp]
        simp
      rw [hdrop]
      exact ih

theorem mergeRows_length (rs : List Row) (ks : List String) (tgt : List Row) :
    (mergeRows rs ks tgt).length = tgt.length := by
  induction rs generalizing tgt with
  | nil => rfl
  | cons r rest ih =>
    have hstep : mergeRows (r :: rest) ks tgt =
        mergeRows rest ks (tgt.map (fun t =>
          if ks.all (fun k => lookupA t k == lookupA r k) then mergeRow t r
          else t)) := rfl
    rw [hstep, ih, List.length_map]

theorem mergeRows_lookup_untouched (rs : List Row) (ks : List String)
    (tgt : List Row) (i : Nat) (k : String)
    (h : ∀ r ∈ rs, lookupA r k = none) :
    ((mergeRows rs ks tgt).get? i).map (fun r => lookupA r k) =
      (tgt.get? i).map (fun r => lookupA r k) := by
  induction rs generalizing tgt with
  | nil => rfl
  | cons r rest ih =>
    have hstep : mergeRows (r :: rest) ks tgt =
        mergeRows rest ks (tgt.map (fun t =>
          if ks.all (fun k2 => lookupA t k2 == lookupA r k2) then mergeRow t r
          else t)) := rfl
    rw [hstep, ih _ (fun r2 hr2 => h r2 (by simp [hr2])), List.get?_map]
    cases htgt : tgt.get? i with
    | none => rfl
    | some t =>
      simp only [Option.map_some']
      by_cases hc : (ks.all (fun k2 => lookupA t k2 == lookupA r k2)) = true
      · simp [hc, lookupA_mergeRow t r k (h r (by simp))]
      · simp [hc]

/-- Claim C4, counterexample: a field-scoped bulk sync requesting
`["labels", "tags"]` — where `tags` is a default field — produces a single
aggregation whose project stage covers only `labels` plus the composite key:
the requested field `tags` is not projected (and hence not synced), so the
operation does not project "exactly the requested fields plus the composite
key". -/
theorem field_scoped_sync_drops_default_request :
    sync_source "frames" [("labels", "L")] [("labels", "L")]
        (some ["labels", "tags"]) none =
      [SyncOp.aggregate
        [Stage.project ["labels", "_id", "_sample_id", "frame_number"],
          Stage.merge "frames" ["_sample_id", "frame_number"]]] ∧
    "tags" ∉ ["labels", "_id", "_sample_id", "frame_number"] := by
  decide

/-- Claim C4, as amended: for every field-scoped bulk sync whose requested
fields survive the default-field restriction, the emitted aggregation
projects exactly the restricted requested fields plus the composite key
(`_id`, `_sample_id`, `frame_number`), ends in a merge keyed on
(`_sample_id`, `frame_number`), and running it preserves the number of
source rows (unmatched rows are discarded, never inserted) and leaves every
source-row field outside the restricted request and the key unchanged. -/
theorem field_scoped_sync_projection_and_merge (dst : String) (vs ss : Schema)
    (fs : List String) (ids : Option (List Nat)) (viewRows srcRows : List Row)
    (h : restrictFields fs ≠ []) :
    SyncOp.aggregate (field_scoped_pipeline dst (restrictFields fs) ids) ∈
      sync_source dst vs ss (some fs) ids ∧
    Stage.project (restrictFields fs ++ keyFields) ∈
      field_scoped_pipeline dst (restrictFields fs) ids ∧
    (field_scoped_pipeline dst (restrictFields fs) ids).getLast? =
      some (Stage.merge dst ["_sample_id", "frame_number"]) ∧
    (runAgg (field_scoped_pipeline dst (restrictFields fs) ids) viewRows
        srcRows).length = srcRows.length ∧
    ∀ i k, k ∉ restrictFields fs → k ∉ keyFields →
      ((runAgg (field_scoped_pipeline dst (restrictFields fs) ids) viewRows
          srcRows).get? i).map (fun r => lookupA r k) =
        (srcRows.get? i).map (fun r => lookupA r k) := by
  have hne : (restrictFields fs).isEmpty = false := by
    simpa [List.isEmpty_iff] using h
  refine ⟨?_, ?_, ?_, ?_, ?_⟩
  · simp [sync_source, hne]
  · cases ids <;> simp [field_scoped_pipeline]
  · cases ids <;> simp [field_scoped_pipeline]
  · cases ids <;> simp [field_scoped_pipeline, runAgg, mergeRows_length]
  · intro i k hk1 hk2
    have hcont : ((restrictFields fs ++ keyFields).contains k) = false := by
      simp [hk1, hk2]
    have hproj : ∀ V : List Row,
        ∀ r ∈ V.map (projectRow (restrictFields fs ++ keyFields)),
        lookupA r k = none := by
      intro V r hr
      rcases List.mem_map.mp hr with ⟨x, -, rfl⟩
      exact lookupA_projectRow _ x k hcont
    cases ids with
    | none =>
      simp only [field_scoped_pipeline, List.nil_append, runAgg]
      exact mergeRows_lookup_untouched _ _ srcRows i k (hproj viewRows)
    | some l =>
      simp only [field_scoped_pipeline, List.cons_append, List.nil_append,
        runAgg]
      exact mergeRows_lookup_untouched _ _ srcRows i k (hproj _)

/-- Witness for the amended claim C4 at a concrete input: syncing field
`labels` into a one-row source collection leaves the unrelated field `other`
of that row unchanged. -/
theorem field_scoped_sync_projection_and_merge_witness :
    restrictFields ["labels"] ≠ [] ∧
    ((runAgg (field_scoped_pipeline "frames" (restrictFields ["labels"]) none)
        [[("_sample_id", 1), ("frame_number", 2), ("labels", 9)]]
        [[("_sample_id", 1), ("frame_number", 2), ("labels", 3),
          ("other", 5)]]).get? 0).map (fun r => lookupA r "other") =
      (([[("_sample_id", 1), ("frame_number", 2), ("labels", 3),
          ("other", 5)]] : List Row).get? 0).map (fun r => lookupA r "other") :=
  ⟨by decide,
    (field_scoped_sync_projection_and_merge "frames" [("labels", "L")]
      [("labels", "L")] ["labels"] none
      [[("_sample_id", 1), ("frame_number", 2), ("labels", 9)]]
      [[("_sample_id", 1), ("frame_number", 2), ("labels", 3), ("other", 5)]]
      (by decide)).2.2.2.2 0 "other" (by decide) (by decide)⟩

theorem fnsAt_append_doc (p : String) (docs : List FrameDoc) (d : FrameDoc) :
    fnsAt p (docs ++ [d]) =
      fnsAt p docs ++ (if d.videoPath = p then [d.frameNumber] else []) := by
  by_cases hd : d.videoPath = p
  · simp [fnsAt, List.filter_append, hd]
  · simp [fnsAt, List.filter_append, hd]

theorem popInv_push (st : PopState) (d : FrameDoc)
    (idm : List (String × Nat)) (sm : List (String × Option (List Nat)))
    (h : PopInv st) (hfn : d.frameNumber ∉ seenAt d.videoPath st) :
    PopInv
      { docs := st.docs ++ [d], idMap := idm, sampleMap := sm,
        frameMap := setA st.frameMap d.videoPath
          (d.frameNumber :: ((lookupA st.frameMap d.videoPath).getD [])) } := by
  intro p
  dsimp only
  rw [fnsAt_append_doc]
  by_cases hp : d.videoPath = p
  · subst hp
    rw [if_pos rfl]
    constructor
    · rw [List.nodup_append]
      refine ⟨(h d.videoPath).1, List.nodup_singleton _, ?_⟩
      intro a ha hb
      rw [List.mem_singleton] at hb
      exact hfn (hb ▸ (h d.videoPath).2 a ha)
    · intro fn hfn2
      have hseen : seenAt d.videoPath
          { docs := st.docs ++ [d], idMap := idm, sampleMap := sm,
            frameMap := setA st.frameMap d.videoPath
              (d.frameNumber :: ((lookupA st.frameMap d.videoPath).getD [])) } =
          d.frameNumber :: ((lookupA st.frameMap d.videoPath).getD []) := by
        simp [seenAt, lookupA_setA]
      rw [hseen]
      rcases List.mem_append.mp hfn2 with h1 | h1
      · exact List.mem_cons_of_mem _ ((h d.videoPath).2 fn h1)
      · rw [List.mem_singleton] at h1
        subst h1
        exact List.mem_cons_self _ _
  · rw [if_neg hp, List.append_nil]
    constructor
    · exact (h p).1
    · intro fn hfn2
      have hseen : seenAt p
          { docs := st.docs ++ [d], idMap := idm, sampleMap := sm,
            frameMap := setA st.frameMap d.videoPath
              (d.frameNumber :: ((lookupA st.frameMap d.videoPath).getD [])) } =
          seenAt p st := by
        simp [seenAt, lookupA_setA, hp]
      rw [hseen]
      exact (h p).2 fn hfn2

theorem popInv_emitDoc (sampleFrames : Bool) (s : VideoSample) (sid fn : Nat)
    (st : PopState) (h : PopInv st) :
    PopInv (emitDoc true sampleFrames s sid st fn) := by
  by_cases hskip : ((lookupA st.frameMap s.filepath).getD []).contains fn
  · have hmem : fn ∈ (lookupA st.frameMap s.filepath).getD [] := by
      simpa using hskip
    have he : emitDoc true sampleFrames s sid st fn = st := by
      simp [emitDoc, hmem]
    rw [he]
    exact h
  · rw [Bool.not_eq_true] at hskip
    have hni : fn ∉ seenAt s.filepath st := by
      simpa [seenAt] using hskip
    have hni2 : fn ∉ (lookupA st.frameMap s.filepath).getD [] := hni
    have he : emitDoc true sampleFrames s sid st fn =
        { docs := st.docs ++
            [{ videoPath := s.filepath,
               filepath :=
                 if sampleFrames then framePath s.filepath fn else s.filepath,
               tags := s.tags, frameNumber := fn, sampleId := sid,
               id := lookupKey s.frameIdsMap fn }],
          idMap := st.idMap, sampleMap := st.sampleMap,
          frameMap := setA st.frameMap s.filepath
            (fn :: ((lookupA st.frameMap s.filepath).getD [])) } := by
      simp [emitDoc, hni2]
    rw [he]
    exact popInv_push st _ st.idMap st.sampleMap h hni

theorem popInv_foldl_emitDoc (sampleFrames : Bool) (s : VideoSample)
    (sid : Nat) (fns : List Nat) (st : PopState) (h : PopInv st) :
    PopInv (fns.foldl (emitDoc true sampleFrames s sid) st) := by
  induction fns generalizing st with
  | nil => exact h
  | cons fn rest ih => exact ih _ (popInv_emitDoc sampleFrames s sid fn st h)

theorem popInv_processSample (sampleFrames forceSample sparse : Bool)
    (fps maxFps : Option Nat) (fileExists : String → Nat → Bool)
    (st : PopState) (s : VideoSample) (h : PopInv st) :
    PopInv (processSample true sampleFrames forceSample sparse fps maxFps
      fileExists st s) := by
  unfold processSample
  simp only [reduceIte]
  apply popInv_foldl_emitDoc
  by_cases hc : (parse_video_frames s.support s.totalFrameCount s.frameRate
      s.frameIdsMap sampleFrames forceSample sparse fps maxFps
      (fileExists s.filepath)).2 = some []
  · rw [if_pos hc]
    exact h
  · rw [if_neg hc]
    exact h

theorem popInv_init : PopInv initPopState := by
  intro p
  constructor
  · simp [fnsAt, initPopState]
  · intro fn hfn
    simp [fnsAt, initPopState] at hfn

theorem popInv_buildState (sampleFrames forceSample sparse : Bool)
    (fps maxFps : Option Nat) (fileExists : String → Nat → Bool)
    (samples : List VideoSample) :
    PopInv (buildState true sampleFrames forceSample sparse fps maxFps
      fileExists samples) := by
  have hfold : ∀ st, PopInv st → PopInv (samples.foldl
      (processSample true sampleFrames forceSample sparse fps maxFps
        fileExists) st) := by
    induction samples with
    | nil => exact fun st h => h
    | cons s rest ih =>
      intro st h
      exact ih _
        (popInv_processSample sampleFrames forceSample sparse fps maxFps
          fileExists st s h)
  exact hfold initPopState popInv_init

set_option maxRecDepth 400000 in
/-- Claim C8: in clips mode, each frame number is emitted as a stub document
at most once per underlying file (for any clip list and any planner inputs),
and the per-path extraction request is the union of the clips' sample frame
numbers accumulated before finalizing: for two clips with supports `[1, 50]`
and `[30, 80]` over one file, the emitted stub frame numbers are `1..80`,
each exactly once, and the finalized extraction request for the file is the
sorted union `1..80` — with no duplicate for the `[30, 50]` overlap. -/
theorem clips_dedup_union :
    (∀ (sampleFrames forceSample sparse : Bool) (fps maxFps : Option Nat)
      (fileExists : String → Nat → Bool) (samples : List VideoSample)
      (p : String),
      (fnsAt p (buildState true sampleFrames forceSample sparse fps maxFps
        fileExists samples).docs).Nodup) ∧
    fnsAt "v.mp4" (buildState true true true false none none
      (fun _ _ => false) [clipA, clipB]).docs = rangeIncl 1 80 ∧
    (finalizeSampleMap (buildState true true true false none none
      (fun _ _ => false) [clipA, clipB])).2 = [some (rangeIncl 1 80)] := by
  refine ⟨?_, ?_, ?_⟩
  · intro sampleFrames forceSample sparse fps maxFps fileExists samples p
    exact (popInv_buildState sampleFrames forceSample sparse fps maxFps
      fileExists samples p).1
  · decide
  · decide
